import Mathlib

/-!
Shallow embedding of `pages/0_Foundations.py` (MRV readiness scoring page):
the scoring formula, the narrative generator, and the persistence layer,
together with theorems checking the natural-language specification.

Python floats are modelled as rationals (`ℚ`), Python ints as `ℕ`,
SQL NULL-able text columns as `Option String`.
-/

namespace Foundations

/-! ## Python string helpers

`str.strip`, `str.replace('_', ' ')`, `str.title` are modelled on the
underlying character lists. -/

/-- Python whitespace test used by `str.strip` (ASCII whitespace suffices for
the strings this page manipulates). -/
def pyWs (c : Char) : Bool :=
  c = ' ' || c = '\t' || c = '\n' || c = '\r' || c = '\x0b' || c = '\x0c'

/-- Strip leading and trailing whitespace from a character list. -/
def stripChars (l : List Char) : List Char :=
  ((l.dropWhile pyWs).reverse.dropWhile pyWs).reverse

/-- Python `str.strip()`. -/
def pyStrip (s : String) : String :=
  ⟨stripChars s.data⟩

/-- Python `s.replace('_', ' ')` (single-character pattern). -/
def pyReplaceUnderscore (s : String) : String :=
  ⟨s.data.map (fun c => if c = '_' then ' ' else c)⟩

/-- Helper for `str.title`: the boolean argument records whether the previous
character was alphabetic. -/
def pyTitleAux : Bool → List Char → List Char
  | _, [] => []
  | prevAlpha, c :: cs =>
    (if prevAlpha then c.toLower else c.toUpper) :: pyTitleAux c.isAlpha cs

/-- Python `str.title()` (restricted to ASCII letters, which is all this page
feeds it). -/
def pyTitle (s : String) : String :=
  ⟨pyTitleAux false s.data⟩

/-! ## Scoring engine (lines 234-246) -/

/-- The six slider ratings collected at lines 236-243; the page constrains
each to [0,5]. -/
structure Ratings where
  boundary : ℕ
  baseline : ℕ
  assumptions : ℕ
  ef_trace : ℕ
  data_quality : ℕ
  uncertainty : ℕ
deriving DecidableEq, Repr

/-- The slider range contract: every rating lies in [0,5]. -/
def Ratings.inRange (r : Ratings) : Prop :=
  r.boundary ≤ 5 ∧ r.baseline ≤ 5 ∧ r.assumptions ≤ 5 ∧
  r.ef_trace ≤ 5 ∧ r.data_quality ≤ 5 ∧ r.uncertainty ≤ 5

instance (r : Ratings) : Decidable r.inRange := by
  unfold Ratings.inRange; infer_instance

/-- Line 245: `score = boundary + baseline + assumptions + ef_trace +
data_quality + uncertainty`. -/
def score (r : Ratings) : ℕ :=
  r.boundary + r.baseline + r.assumptions + r.ef_trace + r.data_quality + r.uncertainty

/-- Line 246: `pct = (score / 30.0) * 100.0`. -/
def pct (r : Ratings) : ℚ :=
  ((score r : ℚ) / 30) * 100

/-! ## Narrative generator internals (`build_narrative`, lines 121-149)

The Python `dims` dict (built at lines 250-257 with a fixed key insertion
order) is modelled as an association list in that insertion order; its
`dims.items()` is that list. -/

/-- Lines 250-257: the `dims` dict, in Python insertion order. -/
def dimsList (r : Ratings) : List (String × ℕ) :=
  [("boundary", r.boundary), ("baseline", r.baseline),
   ("assumptions", r.assumptions), ("ef_trace", r.ef_trace),
   ("data_quality", r.data_quality), ("uncertainty", r.uncertainty)]

/-- Line 123: `sorted(dims.items(), key=lambda kv: kv[1])`.  Python's `sorted`
is stable and ascending; insertion sort with `≤` on the value component has
the same behaviour. -/
def sorted_dims (dims : List (String × ℕ)) : List (String × ℕ) :=
  dims.insertionSort (fun a b => a.2 ≤ b.2)

/-- Line 124: `weakest = sorted_dims[:2]`. -/
def weakest (dims : List (String × ℕ)) : List (String × ℕ) :=
  (sorted_dims dims).take 2

/-- Line 125: `strongest = sorted_dims[-2:]` (Python `[-2:]` on a list of
length `n ≥ 2` drops the first `n - 2` elements; for `n < 2` it is the whole
list, which truncated subtraction also gives). -/
def strongest (dims : List (String × ℕ)) : List (String × ℕ) :=
  (sorted_dims dims).drop ((sorted_dims dims).length - 2)

/-- Lines 127-128, the item formatter:
`f"{k.replace('_',' ').title()} ({v}/5)"`. -/
def fmtDim (kv : String × ℕ) : String :=
  pyTitle (pyReplaceUnderscore kv.1) ++ " (" ++ toString kv.2 ++ "/5)"

/-- Line 127: `weak_txt = ", ".join(...)`. -/
def weak_txt (dims : List (String × ℕ)) : String :=
  String.intercalate ", " ((weakest dims).map fmtDim)

/-- Line 128: `strong_txt = ", ".join(...)`. -/
def strong_txt (dims : List (String × ℕ)) : String :=
  String.intercalate ", " ((strongest dims).map fmtDim)

/-- Lines 130-138: the maturity-stage branch on `score_pct`. -/
def stage (score_pct : ℚ) : String :=
  if score_pct < 50 then "Early-stage (screening only)"
  else if score_pct < 75 then "Intermediate (decision-support)"
  else "Strong (approaching audit-ready structure)"

/-- Lines 130-138: the advice string chosen alongside the stage. -/
def advice (score_pct : ℚ) : String :=
  if score_pct < 50 then
    "Focus on clarifying boundaries, documenting assumptions, and recording factor sources."
  else if score_pct < 75 then
    "Tighten evidence traceability and quantify uncertainty for critical inputs."
  else
    "Maintain traceability and align fully to the chosen standard/methodology for audit defensibility."

/-- Python `f"{x:.0f}"` rounds to the nearest integer, ties to even
(IEEE round-half-even), before printing. -/
def roundHalfEven (q : ℚ) : ℤ :=
  let f := ⌊q⌋
  let r := q - f
  if r < 1/2 then f
  else if 1/2 < r then f + 1
  else if f % 2 = 0 then f else f + 1

/-- The `{score_pct:.0f}` formatting at line 142. -/
def fmtPct0 (q : ℚ) : String :=
  toString (roundHalfEven q)

/-- Lines 140-149: the returned narrative string. -/
def build_narrative (score_pct : ℚ) (dims : List (String × ℕ)) : String :=
  "### Carbon Integrity Narrative\n" ++
  "- **MRV Readiness (screening):** " ++ fmtPct0 score_pct ++ "%\n" ++
  "- **Maturity stage:** " ++ stage score_pct ++ "\n" ++
  "- **Strongest areas:** " ++ strong_txt dims ++ "\n" ++
  "- **Weakest areas:** " ++ weak_txt dims ++ "\n" ++
  "- **Recommendation:** " ++ advice score_pct ++ "\n" ++
  "\n" ++
  "> Note: This score is a structured clarity check, not an audit outcome.\n"

/-! ## Persistence layer (lines 39-96 and 151-176)

The SQLite database behind `get_conn`/`db_exec`/`db_query` is modelled as an
explicit state: per-table existence flags (for `CREATE TABLE IF NOT EXISTS`),
the row lists, a fresh-identifier supply standing for `uuid.uuid4()`, and a
flag recording whether the underlying INSERT write fails (the
`sqlite3.Error` raised by the driver, the spec's StorageError). -/

/-- The error surfaced when the underlying storage write cannot complete
(`sqlite3.Error` escaping `db_exec`; the spec's StorageError). -/
inductive StorageError where
  | storageError
deriving DecidableEq, Repr

/-- A row of the `projects` table (schema at lines 65-71); every column but
the primary key is nullable. -/
structure ProjectRow where
  project_id : String
  project_code : Option String
  project_name : Option String
  status : Option String
  updated_at : Option String
deriving DecidableEq, Repr

/-- A row of the `mrv_scores` table (schema at lines 78-92).  `project_id` is
nullable (`ON DELETE SET NULL`); `mrv_id` is the `str(uuid.uuid4())` key,
modelled as a draw from a fresh `ℕ` supply. -/
structure MrvRow where
  mrv_id : ℕ
  project_id : Option String
  score_pct : ℚ
  boundary : ℕ
  baseline : ℕ
  assumptions : ℕ
  ef_trace : ℕ
  data_quality : ℕ
  uncertainty : ℕ
  narrative : String
  meta_json : String
  created_at : String
deriving DecidableEq, Repr

/-- The database state. `writeFails` models the underlying INSERT write
failing (storage unreachable / driver error); `nextUuid` models the
`uuid.uuid4()` supply (fresh draws never repeat). -/
structure Db where
  hasProjects : Bool
  hasMrvScores : Bool
  projects : List ProjectRow
  mrv_scores : List MrvRow
  nextUuid : ℕ
  writeFails : Bool
deriving Repr

/-- SQL `CREATE TABLE` semantics for one table-existence flag: errors if the
table exists and `IF NOT EXISTS` was not given, otherwise reports the flag
set. -/
def createTable (ifNotExists : Bool) (tableExists : Bool) : Except StorageError Bool :=
  if tableExists then
    if ifNotExists then .ok true else .error .storageError
  else .ok true

/-- Lines 61-94: `ensure_schema` issues `CREATE TABLE IF NOT EXISTS` for
`projects` then for `mrv_scores`. -/
def ensure_schema (db : Db) : Except StorageError Db :=
  match createTable true db.hasProjects with
  | .error e => .error e
  | .ok p =>
    match createTable true db.hasMrvScores with
    | .error e => .error e
    | .ok m => .ok { db with hasProjects := p, hasMrvScores := m }

/-! ### list_projects (lines 102-119) -/

/-- The outcome of the SELECT at lines 104-110, as delivered by the external
database engine: either the ordered rows or a raised driver error. -/
inductive QueryOutcome where
  | ok (rows : List ProjectRow)
  | error
deriving Repr

/-- A record of the DataFrame returned by `list_projects`: the row columns
with `project_code`/`project_name` already `fillna("")`-defaulted, plus the
derived `label` column. -/
structure ProjectRec where
  project_id : String
  project_code : String
  project_name : String
  status : Option String
  updated_at : Option String
  label : String
deriving DecidableEq, Repr

/-- Lines 113-116 applied to one row: default blank code/name, build
`label = code + " — " + name`, and replace it by the raw `project_id`
whenever `label.strip() == "—"`. -/
def projectRec (row : ProjectRow) : ProjectRec :=
  let code := row.project_code.getD ""
  let name := row.project_name.getD ""
  let label := code ++ " — " ++ name
  { project_id := row.project_id
    project_code := code
    project_name := name
    status := row.status
    updated_at := row.updated_at
    label := if pyStrip label = "—" then row.project_id else label }

/-- Lines 102-119: `list_projects`.  The `try/except` returns an empty frame
on any query error; an empty result is returned as-is; otherwise the label
derivation of lines 113-116 is applied to every row. -/
def list_projects (q : QueryOutcome) : List ProjectRec :=
  match q with
  | .error => []
  | .ok rows => rows.map projectRec

/-! ### save_mrv (lines 151-176) -/

/-- The `meta` payload built by the page at line 276:
`{"notes": notes.strip() or None, "saved_on": str(date.today())}`. -/
structure Meta where
  notes : Option String
  saved_on : String
deriving DecidableEq, Repr

/-- JSON string escaping for `json.dumps` (quote and backslash; the payloads
of this page need nothing more). -/
def jsonEscape (s : String) : String :=
  ⟨s.data.flatMap (fun c =>
    if c = '"' then ['\\', '"']
    else if c = '\\' then ['\\', '\\']
    else [c])⟩

/-- `json.dumps(meta or {}, ensure_ascii=False)` at line 172: `None` becomes
`"\x7b\x7d"`, otherwise the two-key dict is rendered. -/
def jsonDumpsMeta : Option Meta → String
  | none => "\x7b\x7d"
  | some m =>
    "\x7b\"notes\": " ++
    (match m.notes with
     | none => "null"
     | some s => "\"" ++ jsonEscape s ++ "\"") ++
    ", \"saved_on\": \"" ++ jsonEscape m.saved_on ++ "\"\x7d"

/-- The single-row INSERT issued through `db_exec` (lines 153-175): fails
when the underlying write fails or the table is missing, otherwise appends
the row. -/
def dbInsertMrv (db : Db) (row : MrvRow) : Except StorageError Db :=
  if db.writeFails then .error .storageError
  else if db.hasMrvScores then
    .ok { db with mrv_scores := db.mrv_scores ++ [row] }
  else .error .storageError

/-- Lines 151-176: `save_mrv`.  Draws a fresh identifier, serializes the meta
payload, inserts one row (the Python dict accesses `dims["boundary"]`, ...,
are the field accesses of `dims : Ratings`), and returns the identifier; a
`db_exec` failure propagates (there is no `try/except` around it). -/
def save_mrv (db : Db) (project_id : String) (score_pct : ℚ) (dims : Ratings)
    (narrative : String) (meta : Option Meta) (nowIso : String) :
    Except StorageError (ℕ × Db) :=
  let mrv_id := db.nextUuid
  let row : MrvRow :=
    { mrv_id := mrv_id
      project_id := some project_id
      score_pct := score_pct
      boundary := dims.boundary
      baseline := dims.baseline
      assumptions := dims.assumptions
      ef_trace := dims.ef_trace
      data_quality := dims.data_quality
      uncertainty := dims.uncertainty
      narrative := narrative
      meta_json := jsonDumpsMeta meta
      created_at := nowIso }
  match dbInsertMrv { db with nextUuid := db.nextUuid + 1 } row with
  | .error e => .error e
  | .ok db' => .ok (mrv_id, db')

/-- Identifier freshness invariant for the `uuid.uuid4()` model: every
identifier already stored was drawn earlier than the next fresh one. -/
def FreshInv (db : Db) : Prop :=
  ∀ row ∈ db.mrv_scores, row.mrv_id < db.nextUuid

/-- The row `save_mrv` assembles before the INSERT (lines 161-174). -/
def mrvRowOf (db : Db) (pid : String) (p : ℚ) (dims : Ratings)
    (narrative : String) (meta : Option Meta) (nowIso : String) : MrvRow :=
  { mrv_id := db.nextUuid, project_id := some pid, score_pct := p,
    boundary := dims.boundary, baseline := dims.baseline,
    assumptions := dims.assumptions, ef_trace := dims.ef_trace,
    data_quality := dims.data_quality, uncertainty := dims.uncertainty,
    narrative := narrative, meta_json := jsonDumpsMeta meta, created_at := nowIso }

/-! ### Page orchestration (lines 245-277) -/

/-- Lines 245-246 and 250-277: the save-button handler.  It computes
`score`/`pct`, builds `dims` and the narrative, strips the notes
(`notes.strip() or None`), and calls `save_mrv` with the computed
percentage. -/
def pageSave (db : Db) (project_id : String) (r : Ratings) (notes : String)
    (today : String) (nowIso : String) : Except StorageError (ℕ × Db) :=
  let p := pct r
  let narrative := build_narrative p (dimsList r)
  let meta : Meta :=
    { notes := if pyStrip notes = "" then none else some (pyStrip notes)
      saved_on := today }
  save_mrv db project_id p r narrative (some meta) nowIso

/-- The operations this core performs against the store. -/
inductive Op where
  | ensureSchemaOp
  | listProjectsOp (q : QueryOutcome)
  | saveOp (project_id : String) (r : Ratings) (notes : String) (today : String) (nowIso : String)

/-- One step of the page against the database: schema creation, the
read-only project listing, or a save. -/
def step (db : Db) : Op → Except StorageError Db
  | .ensureSchemaOp => ensure_schema db
  | .listProjectsOp _ => .ok db
  | .saveOp pid r notes today nowIso =>
    (pageSave db pid r notes today nowIso).map (·.2)

/-- Modelled from the spec: project deletion is performed outside this core
(the Registry page / the database engine); missing from src.  The schema
declared at line 91, `FOREIGN KEY(project_id) REFERENCES projects(project_id)
ON DELETE SET NULL`, says a deleted project's score rows survive with the
reference cleared, which is what this models. -/
def deleteProject (db : Db) (pid : String) : Db :=
  { db with
    projects := db.projects.filter (fun p => p.project_id ≠ pid)
    mrv_scores := db.mrv_scores.map (fun row =>
      if row.project_id = some pid then { row with project_id := none } else row) }

/-! ## Concrete instances used by the theorems and their witnesses -/

/-- The concrete scenario ratings of the spec's §8 test list:
boundary 3, baseline 3, assumptions 3, ef_trace 2, data_quality 3,
uncertainty 2 (the page's slider defaults). -/
def scenarioRatings : Ratings :=
  ⟨3, 3, 3, 2, 3, 2⟩

/-- The concrete project rows used to witness C5. -/
def witnessRows : List ProjectRow :=
  [⟨"p1", some " ", none, none, none⟩,
   ⟨"p2", some "C2", some "Wind Farm", none, none⟩]

/-- A database with both tables, no rows yet, a working store, and the
identifier supply at zero. -/
def witnessDb : Db :=
  { hasProjects := true, hasMrvScores := true, projects := [], mrv_scores := [],
    nextUuid := 0, writeFails := false }

/-- The witness database with a failing underlying write. -/
def witnessDbFail : Db :=
  { witnessDb with writeFails := true }

/-- The invariant of §3 on a stored row: the stored percentage is
`100 * (sum of the six stored ratings) / 30`. -/
def ScoreInv (row : MrvRow) : Prop :=
  row.score_pct = 100 * ((row.boundary + row.baseline + row.assumptions +
    row.ef_trace + row.data_quality + row.uncertainty : ℕ) : ℚ) / 30

/-- The narrative text that follows the formatted percentage. -/
def narrativeTail (p : ℚ) (dims : List (String × ℕ)) : String :=
  "%\n" ++
  "- **Maturity stage:** " ++ stage p ++ "\n" ++
  "- **Strongest areas:** " ++ strong_txt dims ++ "\n" ++
  "- **Weakest areas:** " ++ weak_txt dims ++ "\n" ++
  "- **Recommendation:** " ++ advice p ++ "\n" ++
  "\n" ++
  "> Note: This score is a structured clarity check, not an audit outcome.\n"

/-! ## Theorems for the claims -/

/-- C1: for every tuple of six integer ratings each in [0,5], the computed
percentage equals `100 * sum(ratings) / 30` exactly (no internal rounding),
lies in [0,100], the all-zero tuple yields 0 and the all-five tuple
yields 100. -/
theorem C1_computeScore (r : Ratings) (h : r.inRange) :
    pct r = 100 * (score r : ℚ) / 30 ∧
    0 ≤ pct r ∧ pct r ≤ 100 ∧
    pct ⟨0, 0, 0, 0, 0, 0⟩ = 0 ∧ pct ⟨5, 5, 5, 5, 5, 5⟩ = 100 := by
  obtain ⟨h1, h2, h3, h4, h5, h6⟩ := h
  have hs : (score r : ℚ) ≤ 30 := by
    have : score r ≤ 30 := by unfold score; omega
    exact_mod_cast this
  refine ⟨by unfold pct; ring, ?_, ?_, by norm_num [pct, score], by norm_num [pct, score]⟩
  · unfold pct
    positivity
  · rw [pct, div_mul_eq_mul_div, div_le_iff₀ (by norm_num : (0:ℚ) < 30)]
    linarith

/-- Witness for C1 at the scenario ratings. -/
theorem C1_computeScore_witness :
    scenarioRatings.inRange ∧
    (pct scenarioRatings = 100 * (score scenarioRatings : ℚ) / 30 ∧
     0 ≤ pct scenarioRatings ∧ pct scenarioRatings ≤ 100 ∧
     pct ⟨0, 0, 0, 0, 0, 0⟩ = 0 ∧ pct ⟨5, 5, 5, 5, 5, 5⟩ = 100) :=
  ⟨by decide, C1_computeScore scenarioRatings (by decide)⟩

/-- C2: the stage selection maps `p < 50` to Early-stage, `50 ≤ p < 75` to
Intermediate, `75 ≤ p` to Strong, with half-open boundaries: 50.0 is
Intermediate and 75.0 is Strong, while 49.9 is Early and 74.9 is
Intermediate. -/
theorem C2_classifyStage (p : ℚ) :
    (p < 50 → stage p = "Early-stage (screening only)") ∧
    (50 ≤ p → p < 75 → stage p = "Intermediate (decision-support)") ∧
    (75 ≤ p → stage p = "Strong (approaching audit-ready structure)") ∧
    stage (499/10) = "Early-stage (screening only)" ∧
    stage 50 = "Intermediate (decision-support)" ∧
    stage (749/10) = "Intermediate (decision-support)" ∧
    stage 75 = "Strong (approaching audit-ready structure)" := by
  refine ⟨?_, ?_, ?_, by norm_num [stage], by norm_num [stage],
    by norm_num [stage], by norm_num [stage]⟩
  · intro h
    rw [stage, if_pos h]
  · intro h1 h2
    rw [stage, if_neg (not_lt.2 h1), if_pos h2]
  · intro h
    rw [stage, if_neg (not_lt.2 (by linarith)), if_neg (not_lt.2 h)]

/-- Witness for C2 at the four boundary inputs. -/
theorem C2_classifyStage_witness :
    ((499/10 : ℚ) < 50 ∧ stage (499/10) = "Early-stage (screening only)") ∧
    ((50 : ℚ) ≤ 50 ∧ (50 : ℚ) < 75 ∧ stage 50 = "Intermediate (decision-support)") ∧
    ((75 : ℚ) ≤ 75 ∧ stage 75 = "Strong (approaching audit-ready structure)") :=
  ⟨⟨by norm_num, (C2_classifyStage (499/10)).1 (by norm_num)⟩,
   ⟨by norm_num, by norm_num, (C2_classifyStage 50).2.1 (by norm_num) (by norm_num)⟩,
   ⟨by norm_num, (C2_classifyStage 75).2.2.1 (by norm_num)⟩⟩

set_option maxRecDepth 4000 in
/-- C3: for ratings (3,3,3,2,3,2) the sum is 16, the percentage is 160/3 =
53.33..., the stage is Intermediate, the two weakest dimensions are
`ef_trace` and `uncertainty` (both 2) and the two strongest are the
value-3 dimensions `assumptions` and `data_quality` picked by the stable
ascending sort's tie-break; the narrative lists exactly these. -/
theorem C3_scenario :
    score scenarioRatings = 16 ∧
    pct scenarioRatings = 160/3 ∧
    stage (pct scenarioRatings) = "Intermediate (decision-support)" ∧
    weakest (dimsList scenarioRatings) = [("ef_trace", 2), ("uncertainty", 2)] ∧
    strongest (dimsList scenarioRatings) = [("assumptions", 3), ("data_quality", 3)] ∧
    build_narrative (pct scenarioRatings) (dimsList scenarioRatings) =
      "### Carbon Integrity Narrative\n" ++
      "- **MRV Readiness (screening):** 53%\n" ++
      "- **Maturity stage:** Intermediate (decision-support)\n" ++
      "- **Strongest areas:** Assumptions (3/5), Data Quality (3/5)\n" ++
      "- **Weakest areas:** Ef Trace (2/5), Uncertainty (2/5)\n" ++
      "- **Recommendation:** Tighten evidence traceability and quantify uncertainty for critical inputs.\n" ++
      "\n" ++
      "> Note: This score is a structured clarity check, not an audit outcome.\n" := by
  have hp : pct scenarioRatings = 160/3 := by norm_num [pct, score, scenarioRatings]
  have hfloor : ⌊(160/3 : ℚ)⌋ = 53 := by norm_num [Int.floor_eq_iff]
  have hround : roundHalfEven (160/3) = 53 := by
    simp [roundHalfEven, hfloor]
    norm_num
  have hfmt : fmtPct0 (160/3) = "53" := by
    rw [fmtPct0, hround]; rfl
  have hstage : stage (160/3 : ℚ) = "Intermediate (decision-support)" := by
    norm_num [stage]
  have hadvice : advice (160/3 : ℚ) =
      "Tighten evidence traceability and quantify uncertainty for critical inputs." := by
    norm_num [advice]
  refine ⟨by decide, hp, by rw [hp]; exact hstage, by decide, by decide, ?_⟩
  rw [hp, build_narrative, hfmt, hstage, hadvice]
  rfl

/-- C4: for every assignment of the six named ratings, the narrative
generator selects exactly two weakest and exactly two strongest dimensions,
and no dimension name occurs in both pairs. -/
theorem C4_two_weakest_two_strongest (r : Ratings) :
    (weakest (dimsList r)).length = 2 ∧
    (strongest (dimsList r)).length = 2 ∧
    ∀ name : String, name ∈ (weakest (dimsList r)).map Prod.fst →
      name ∉ (strongest (dimsList r)).map Prod.fst := by
  have hperm : List.Perm (sorted_dims (dimsList r)) (dimsList r) :=
    List.perm_insertionSort _ _
  have hlen : (sorted_dims (dimsList r)).length = 6 := by
    rw [hperm.length_eq]; rfl
  refine ⟨?_, ?_, ?_⟩
  · simp [weakest, List.length_take, hlen]
  · rw [strongest, List.length_drop, hlen]
  · intro name hw hs
    have hnames : List.Perm ((sorted_dims (dimsList r)).map Prod.fst)
        ((dimsList r).map Prod.fst) :=
      hperm.map _
    have hnodup : ((sorted_dims (dimsList r)).map Prod.fst).Nodup := by
      refine hnames.nodup_iff.2 ?_
      simp only [dimsList, List.map_cons, List.map_nil]
      decide
    have hdisj : List.Disjoint
        (((sorted_dims (dimsList r)).map Prod.fst).take 2)
        (((sorted_dims (dimsList r)).map Prod.fst).drop ((sorted_dims (dimsList r)).length - 2)) :=
      List.disjoint_take_drop hnodup (by rw [hlen]; norm_num)
    rw [weakest, List.map_take] at hw
    rw [strongest, List.map_drop] at hs
    exact hdisj hw hs

/-- Witness for C4: at the scenario ratings, `ef_trace` is among the weakest
names and hence not among the strongest. -/
theorem C4_two_weakest_two_strongest_witness :
    "ef_trace" ∈ (weakest (dimsList scenarioRatings)).map Prod.fst ∧
    "ef_trace" ∉ (strongest (dimsList scenarioRatings)).map Prod.fst :=
  ⟨by decide,
   (C4_two_weakest_two_strongest scenarioRatings).2.2 "ef_trace" (by decide)⟩

/-! ### String lemmas for the label derivation -/

/-- Dropping a whitespace prefix does not change the non-whitespace
characters. -/
theorem filter_not_ws_dropWhile (l : List Char) :
    (l.dropWhile pyWs).filter (fun c => !pyWs c) = l.filter (fun c => !pyWs c) := by
  induction l with
  | nil => rfl
  | cons c cs ih =>
    rw [List.dropWhile_cons]
    by_cases h : pyWs c
    · rw [if_pos h, ih, List.filter_cons]
      simp [h]
    · rw [if_neg h]

/-- `stripChars` removes only whitespace: the non-whitespace characters of
the result are exactly those of the input. -/
theorem filter_not_ws_stripChars (l : List Char) :
    (stripChars l).filter (fun c => !pyWs c) = l.filter (fun c => !pyWs c) := by
  rw [stripChars, List.filter_reverse, filter_not_ws_dropWhile, List.filter_reverse,
    List.reverse_reverse, filter_not_ws_dropWhile]

/-- `dropWhile` runs through a whitespace-only prefix. -/
theorem dropWhile_ws_append (c rest : List Char) (h : ∀ x ∈ c, pyWs x = true) :
    (c ++ rest).dropWhile pyWs = rest.dropWhile pyWs := by
  induction c with
  | nil => rfl
  | cons a as ih =>
    rw [List.cons_append, List.dropWhile_cons, if_pos (h a (by simp))]
    exact ih fun x hx => h x (by simp [hx])

/-- When code and name are whitespace-only, stripping the derived label
leaves exactly the em-dash. -/
theorem stripChars_label_of_blank (c n : List Char)
    (hc : ∀ x ∈ c, pyWs x = true) (hn : ∀ x ∈ n, pyWs x = true) :
    stripChars (c ++ ' ' :: '—' :: ' ' :: n) = ['—'] := by
  rw [stripChars, dropWhile_ws_append c _ hc, List.dropWhile_cons, if_pos (by decide),
    List.dropWhile_cons, if_neg (by decide)]
  have hrev : ('—' :: ' ' :: n).reverse = (n.reverse ++ [' ']) ++ ['—'] := by simp
  have hws : ∀ x ∈ n.reverse ++ [' '], pyWs x = true := by
    intro x hx
    rcases List.mem_append.1 hx with h1 | h2
    · exact hn x (List.mem_reverse.1 h1)
    · simp only [List.mem_singleton] at h2
      subst h2
      decide
  rw [hrev, dropWhile_ws_append _ _ hws]
  rfl

/-- A list equal to the one-element dash list around a dash is empty on both
sides. -/
theorem append_dash_singleton {a b : List Char} (h : a ++ '—' :: b = ['—']) :
    a = [] ∧ b = [] := by
  cases a with
  | nil => simpa using h
  | cons x xs =>
    have := congrArg List.length h
    simp [List.length_append] at this

/-- Conversely, if stripping the derived label leaves exactly the em-dash,
then code and name are whitespace-only. -/
theorem blank_of_stripChars_label (c n : List Char)
    (h : stripChars (c ++ ' ' :: '—' :: ' ' :: n) = ['—']) :
    (∀ x ∈ c, pyWs x = true) ∧ (∀ x ∈ n, pyWs x = true) := by
  have hf := filter_not_ws_stripChars (c ++ ' ' :: '—' :: ' ' :: n)
  rw [h, List.filter_append] at hf
  simp only [List.filter_cons] at hf
  norm_num [show (!pyWs ' ') = false from rfl, show (!pyWs '—') = true from rfl] at hf
  obtain ⟨hc, hn⟩ := append_dash_singleton hf.symm
  constructor
  · intro x hx
    have := List.filter_eq_nil_iff.mp hc x hx
    simpa using this
  · intro x hx
    have := List.filter_eq_nil_iff.mp hn x hx
    simpa using this

/-- The test at line 116: `(code + " — " + name).strip() == "—"` holds
exactly when both code and name are whitespace-only ("blank"). -/
theorem pyStrip_label_eq_dash (code name : String) :
    pyStrip (code ++ " — " ++ name) = "—" ↔
      ((∀ x ∈ code.data, pyWs x = true) ∧ (∀ x ∈ name.data, pyWs x = true)) := by
  have hdata : (code ++ " — " ++ name).data =
      code.data ++ ' ' :: '—' :: ' ' :: name.data := by
    rw [show (code ++ " — " ++ name).data = (code.data ++ [' ', '—', ' ']) ++ name.data from rfl,
      List.append_assoc]
    rfl
  constructor
  · intro h
    have h' : stripChars ((code ++ " — " ++ name).data) = ['—'] := congrArg String.data h
    rw [hdata] at h'
    exact blank_of_stripChars_label _ _ h'
  · intro ⟨h1, h2⟩
    apply String.ext
    show stripChars ((code ++ " — " ++ name).data) = ['—']
    rw [hdata]
    exact stripChars_label_of_blank _ _ h1 h2

/-- C5: `list_projects` never surfaces an error: a failed query (and an
empty table) yields the empty list, and every returned record's label is
`"{code} — {name}"`, except that it falls back to the raw `project_id`
exactly when both code and name are blank (whitespace-only, after the
empty-string default for NULL). -/
theorem C5_listProjects (rows : List ProjectRow) (rec : ProjectRec)
    (hrec : rec ∈ list_projects (.ok rows)) :
    list_projects .error = [] ∧
    list_projects (.ok []) = [] ∧
    ((rec.project_code.data.all pyWs ∧ rec.project_name.data.all pyWs) →
      rec.label = rec.project_id) ∧
    (¬(rec.project_code.data.all pyWs ∧ rec.project_name.data.all pyWs) →
      rec.label = rec.project_code ++ " — " ++ rec.project_name) := by
  obtain ⟨row, _, rfl⟩ := List.mem_map.1 hrec
  refine ⟨rfl, rfl, ?_, ?_⟩
  · intro hb
    simp only [projectRec] at hb ⊢
    rw [if_pos ((pyStrip_label_eq_dash _ _).2
      ⟨List.all_eq_true.mp hb.1, List.all_eq_true.mp hb.2⟩)]
  · intro h
    simp only [projectRec] at h ⊢
    rw [if_neg fun hdash => h
      ⟨List.all_eq_true.mpr ((pyStrip_label_eq_dash _ _).1 hdash).1,
       List.all_eq_true.mpr ((pyStrip_label_eq_dash _ _).1 hdash).2⟩]

/-- Witness for C5: two concrete rows, one with blank code and missing name
(label falls back to the id), one with real code and name. -/
theorem C5_listProjects_witness :
    (projectRec ⟨"p1", some " ", none, none, none⟩ ∈ list_projects (.ok witnessRows) ∧
      (projectRec ⟨"p1", some " ", none, none, none⟩).label = "p1") ∧
    (projectRec ⟨"p2", some "C2", some "Wind Farm", none, none⟩ ∈
        list_projects (.ok witnessRows) ∧
      (projectRec ⟨"p2", some "C2", some "Wind Farm", none, none⟩).label = "C2 — Wind Farm") :=
  ⟨⟨by decide,
    ((C5_listProjects witnessRows (projectRec ⟨"p1", some " ", none, none, none⟩)
      (by decide)).2.2.1 (by decide)).trans rfl⟩,
   ⟨by decide,
    (C5_listProjects witnessRows (projectRec ⟨"p2", some "C2", some "Wind Farm", none, none⟩)
      (by decide)).2.2.2 (by decide)⟩⟩

/-! ### Claims C6-C10 -/

/-- Characterization of `save_mrv`: error when the write fails or the table
is missing, otherwise the fresh identifier together with the row appended. -/
theorem save_mrv_eq (db : Db) (pid : String) (p : ℚ) (dims : Ratings)
    (narrative : String) (meta : Option Meta) (nowIso : String) :
    save_mrv db pid p dims narrative meta nowIso =
      if db.writeFails = true then .error .storageError
      else if db.hasMrvScores = true then
        .ok (db.nextUuid,
          { db with
            mrv_scores := db.mrv_scores ++ [mrvRowOf db pid p dims narrative meta nowIso],
            nextUuid := db.nextUuid + 1 })
      else .error .storageError := by
  rw [save_mrv, dbInsertMrv]
  by_cases hw : db.writeFails = true
  · simp [hw]
  · by_cases hm : db.hasMrvScores = true
    · simp [hw, hm, mrvRowOf]
    · simp [hw, hm]

/-- C6: `save_mrv` draws a fresh identifier (never colliding with a stored
one, under the supply invariant), serializes the meta payload into the row,
inserts exactly one row, and returns the identifier; when the underlying
write fails the StorageError propagates to the caller. -/
theorem C6_insertScore (db : Db) (pid : String) (p : ℚ) (dims : Ratings)
    (narrative : String) (meta : Option Meta) (nowIso : String) :
    (db.writeFails = true →
      save_mrv db pid p dims narrative meta nowIso = .error .storageError) ∧
    (db.writeFails = false → db.hasMrvScores = true →
      ∃ row : MrvRow,
        save_mrv db pid p dims narrative meta nowIso =
          .ok (db.nextUuid,
            { db with mrv_scores := db.mrv_scores ++ [row],
                      nextUuid := db.nextUuid + 1 }) ∧
        row.mrv_id = db.nextUuid ∧
        row.meta_json = jsonDumpsMeta meta ∧
        (FreshInv db → row.mrv_id ∉ db.mrv_scores.map MrvRow.mrv_id)) := by
  constructor
  · intro hw
    rw [save_mrv_eq, if_pos hw]
  · intro hw hm
    refine ⟨mrvRowOf db pid p dims narrative meta nowIso, ?_, rfl, rfl, ?_⟩
    · rw [save_mrv_eq, if_neg (by simp [hw]), if_pos hm]
    · intro hfresh hmem
      simp only [List.mem_map] at hmem
      obtain ⟨row', hrow', hid⟩ := hmem
      have := hfresh row' hrow'
      simp only [mrvRowOf] at hid
      omega

/-- Witness for C6 at a concrete database: the failing write propagates the
error, and the successful write returns the fresh identifier with the row
appended. -/
theorem C6_insertScore_witness :
    (witnessDbFail.writeFails = true ∧
      save_mrv witnessDbFail "p1" (160/3) scenarioRatings "text" none "2026-01-01T00:00:00Z" =
        .error .storageError) ∧
    (witnessDb.writeFails = false ∧ witnessDb.hasMrvScores = true ∧
      ∃ row : MrvRow,
        save_mrv witnessDb "p1" (160/3) scenarioRatings "text" none "2026-01-01T00:00:00Z" =
          .ok (witnessDb.nextUuid,
            { witnessDb with mrv_scores := witnessDb.mrv_scores ++ [row],
                             nextUuid := witnessDb.nextUuid + 1 }) ∧
        row.mrv_id = witnessDb.nextUuid ∧
        row.meta_json = jsonDumpsMeta none ∧
        (FreshInv witnessDb → row.mrv_id ∉ witnessDb.mrv_scores.map MrvRow.mrv_id)) :=
  ⟨⟨rfl, (C6_insertScore witnessDbFail "p1" (160/3) scenarioRatings "text" none
      "2026-01-01T00:00:00Z").1 rfl⟩,
   ⟨rfl, rfl, (C6_insertScore witnessDb "p1" (160/3) scenarioRatings "text" none
      "2026-01-01T00:00:00Z").2 rfl rfl⟩⟩

/-- C7: every row the save path writes satisfies the score invariant at
insertion time, and every operation of this core only appends to
`mrv_scores` — existing rows, their `score_pct` included, are never updated
or removed. -/
theorem C7_score_append_only (db db' : Db) (op : Op) (h : step db op = .ok db') :
    (∃ newRows, db'.mrv_scores = db.mrv_scores ++ newRows) ∧
    ∀ row ∈ db'.mrv_scores, row ∉ db.mrv_scores → ScoreInv row := by
  cases op with
  | ensureSchemaOp =>
    have hct : ∀ b : Bool, createTable true b = .ok true := by
      intro b; cases b <;> rfl
    rw [step, ensure_schema, hct, hct] at h
    obtain rfl : { db with hasProjects := true, hasMrvScores := true } = db' := by
      simpa using h
    exact ⟨⟨[], by simp⟩, fun row hr hnr => absurd hr hnr⟩
  | listProjectsOp q =>
    obtain rfl : db = db' := by simpa [step] using h
    exact ⟨⟨[], by simp⟩, fun row hr hnr => absurd hr hnr⟩
  | saveOp pid r notes today nowIso =>
    rw [step, pageSave, save_mrv_eq] at h
    by_cases hw : db.writeFails = true
    · rw [if_pos hw] at h
      simp [Except.map] at h
    · rw [if_neg hw] at h
      by_cases hm : db.hasMrvScores = true
      · rw [if_pos hm] at h
        simp only [Except.map, Except.ok.injEq] at h
        subst h
        refine ⟨⟨_, rfl⟩, ?_⟩
        intro row hr hnr
        simp only [List.mem_append, List.mem_singleton] at hr
        rcases hr with hr | rfl
        · exact absurd hr hnr
        · show pct r = _
          simp only [mrvRowOf, pct, score]
          push_cast
          ring
      · rw [if_neg hm] at h
        simp [Except.map] at h

/-- Witness for C7: a concrete save against the empty witness database
succeeds and its conclusion holds there. -/
theorem C7_score_append_only_witness :
    ∃ db' : Db,
      step witnessDb (.saveOp "p1" scenarioRatings "" "2026-01-01" "now") = .ok db' ∧
      ((∃ newRows, db'.mrv_scores = witnessDb.mrv_scores ++ newRows) ∧
        ∀ row ∈ db'.mrv_scores, row ∉ witnessDb.mrv_scores → ScoreInv row) := by
  rcases hstep : step witnessDb (.saveOp "p1" scenarioRatings "" "2026-01-01" "now") with e | db'
  · exact absurd hstep (by simp [step, pageSave, save_mrv_eq, witnessDb, Except.map])
  · exact ⟨db', rfl, C7_score_append_only witnessDb db' _ hstep⟩

/-- C8: deleting a referenced project leaves every `mrv_scores` row in
place — same row count, every field except `project_id` unchanged — and
clears to null exactly the `project_id` references to the deleted project. -/
theorem C8_delete_sets_null (db : Db) (pid : String) :
    (deleteProject db pid).mrv_scores.length = db.mrv_scores.length ∧
    ∀ i : ℕ, (deleteProject db pid).mrv_scores[i]? =
      (db.mrv_scores[i]?).map fun row =>
        { row with project_id :=
            if row.project_id = some pid then none else row.project_id } := by
  constructor
  · simp [deleteProject]
  · intro i
    simp only [deleteProject, List.getElem?_map]
    cases db.mrv_scores[i]? with
    | none => rfl
    | some row =>
      by_cases hp : row.project_id = some pid
      · simp [hp]
      · simp [hp]

/-- C9: `ensure_schema` raises no error; after any call both tables exist
and a repeated call returns the same state; a call on a state where both
tables already exist changes nothing. -/
theorem C9_ensureSchema_idempotent (db : Db) :
    (∃ db', ensure_schema db = .ok db' ∧
      db'.hasProjects = true ∧ db'.hasMrvScores = true ∧
      ensure_schema db' = .ok db') ∧
    (db.hasProjects = true → db.hasMrvScores = true → ensure_schema db = .ok db) := by
  have hct : ∀ b : Bool, createTable true b = .ok true := by
    intro b; cases b <;> rfl
  have hok : ∀ d : Db, ensure_schema d =
      .ok { d with hasProjects := true, hasMrvScores := true } := by
    intro d; rw [ensure_schema, hct, hct]
  constructor
  · exact ⟨{ db with hasProjects := true, hasMrvScores := true },
      hok db, rfl, rfl, hok _⟩
  · intro h1 h2
    rw [hok db]
    cases db
    simp only at h1 h2
    rw [h1, h2]

/-- Witness for C9: on the witness database, whose tables both exist,
`ensure_schema` is a no-op. -/
theorem C9_ensureSchema_idempotent_witness :
    witnessDb.hasProjects = true ∧ witnessDb.hasMrvScores = true ∧
    ensure_schema witnessDb = .ok witnessDb :=
  ⟨rfl, rfl, (C9_ensureSchema_idempotent witnessDb).2 rfl rfl⟩

/-- C10: the narrative embeds the percentage through the `"%.0f"` formatter
(`fmtPct0`), which displays the nearest whole number (ties to even, which
cannot occur for reachable scores); at the scenario ratings the narrative
shows 53 while the score value itself stays the unrounded 160/3. -/
theorem C10_narrative_rounds_display :
    (∀ (p : ℚ) (dims : List (String × ℕ)),
      build_narrative p dims =
        "### Carbon Integrity Narrative\n" ++ "- **MRV Readiness (screening):** " ++
        fmtPct0 p ++ narrativeTail p dims) ∧
    (∀ q : ℚ, |q - (roundHalfEven q : ℚ)| ≤ 1/2) ∧
    fmtPct0 (pct scenarioRatings) = "53" ∧
    pct scenarioRatings = 160/3 ∧
    pct scenarioRatings ≠ 53 := by
  have hp : pct scenarioRatings = 160/3 := by norm_num [pct, score, scenarioRatings]
  refine ⟨?_, ?_, ?_, hp, ?_⟩
  · intro p dims
    apply String.ext
    show (build_narrative p dims).data = _
    simp [build_narrative, narrativeTail]
  · intro q
    have h1 : ((⌊q⌋ : ℤ) : ℚ) ≤ q := Int.floor_le q
    have h2 : q < (⌊q⌋ : ℤ) + 1 := Int.lt_floor_add_one q
    simp only [roundHalfEven]
    split_ifs with ha hb hc
    · rw [abs_le]
      constructor <;> linarith
    · rw [abs_le]
      push_cast
      constructor <;> linarith
    · rw [abs_le]
      constructor <;> linarith
    · rw [abs_le]
      push_cast
      constructor <;> linarith
  · rw [hp, fmtPct0]
    have hfloor : ⌊(160/3 : ℚ)⌋ = 53 := by norm_num [Int.floor_eq_iff]
    have hround : roundHalfEven (160/3) = 53 := by
      simp [roundHalfEven, hfloor]
      norm_num
    rw [hround]
    rfl
  · rw [hp]
    norm_num

end Foundations
